import Mathlib

/-!
Verification development for the Gateway Cardano AMM connector
(`hummingbot/connector/gateway/amm/gateway_cardano_amm.py`).

The connector keeps two Python dictionaries of account balances
(`_account_balances`, `_account_available_balances`), a registry of
in-flight orders keyed by client order id, and reconciles both against a
remote gateway by polling.  Python `Decimal` values are modelled as exact
rationals, Python dictionaries as insertion-ordered association lists with
unique keys, and timestamps as rationals.
-/

/-- A token symbol (a Python string key of the balance dictionaries). -/
abbrev Token := String

/-- Exact decimal arithmetic (`decimal.Decimal`) is modelled by the rationals. -/
abbrev Amount := ℚ

/-- Dictionary lookup, first matching key wins (keys are unique in a dict). -/
def lookupA {α : Type} : List (String × α) → String → Option α
  | [], _ => none
  | (k, v) :: rest, s => if s = k then some v else lookupA rest s

/-- Dictionary assignment `d[k] = v`: overwrite in place when the key is
present, append otherwise (Python dicts preserve insertion order). -/
def setA {α : Type} : List (String × α) → String → α → List (String × α)
  | [], k, v => [(k, v)]
  | (k0, v0) :: rest, k, v =>
      if k0 = k then (k, v) :: rest else (k0, v0) :: setA rest k v

/-- Dictionary deletion `del d[k]` (a no-op when the key is absent). -/
def delA {α : Type} : List (String × α) → String → List (String × α)
  | [], _ => []
  | (k0, v0) :: rest, k =>
      if k0 = k then delA rest k else (k0, v0) :: delA rest k

theorem lookupA_setA {α : Type} (m : List (String × α)) (k s : String) (v : α) :
    lookupA (setA m k v) s = if s = k then some v else lookupA m s := by
  induction m with
  | nil => simp [setA, lookupA]
  | cons hd tl ih =>
    obtain ⟨k0, v0⟩ := hd
    by_cases h0 : k0 = k
    · subst h0
      by_cases hs : s = k0 <;> simp [setA, lookupA, hs]
    · by_cases hs : s = k0
      · have hsk : ¬ s = k := fun h => h0 (hs.symm.trans h)
        simp [setA, lookupA, h0, hs, hsk]
      · simp [setA, lookupA, h0, hs, ih]

theorem lookupA_delA {α : Type} (m : List (String × α)) (k s : String) :
    lookupA (delA m k) s = if s = k then none else lookupA m s := by
  induction m with
  | nil => simp [delA, lookupA]
  | cons hd tl ih =>
    obtain ⟨k0, v0⟩ := hd
    by_cases h0 : k0 = k
    · subst h0
      simp only [delA, if_pos rfl, lookupA]
      by_cases hs : s = k0 <;> simpa [hs] using ih
    · by_cases hs : s = k0
      · have hsk : ¬ s = k := fun h => h0 (hs.symm.trans h)
        simp [delA, lookupA, h0, hs, hsk]
      · simp [delA, lookupA, h0, hs, ih]

theorem lookupA_eq_none_of_not_mem {α : Type} (m : List (String × α)) (s : String)
    (h : s ∉ m.map Prod.fst) : lookupA m s = none := by
  induction m with
  | nil => rfl
  | cons hd tl ih =>
    obtain ⟨k0, v0⟩ := hd
    simp only [List.map_cons, List.mem_cons, not_or] at h
    simp [lookupA, h.1, ih h.2]

theorem mem_of_lookupA_isSome {α : Type} (m : List (String × α)) (s : String)
    (h : (lookupA m s).isSome = true) : s ∈ m.map Prod.fst := by
  induction m with
  | nil => simp [lookupA] at h
  | cons hd tl ih =>
    obtain ⟨k0, v0⟩ := hd
    by_cases hs : s = k0
    · simp [hs]
    · simp only [lookupA, if_neg hs] at h
      simp [List.map_cons, ih h]

theorem not_mem_of_lookupA_eq_none {α : Type} (m : List (String × α)) (s : String)
    (h : lookupA m s = none) : s ∉ m.map Prod.fst := by
  intro hmem
  induction m with
  | nil => simp at hmem
  | cons hd tl ih =>
    obtain ⟨k0, v0⟩ := hd
    by_cases hs : s = k0
    · simp [lookupA, hs] at h
    · simp only [lookupA, if_neg hs] at h
      simp only [List.map_cons, List.mem_cons] at hmem
      exact ih h (hmem.resolve_left hs)

/-- A balance dictionary: token symbol to decimal amount
(`_account_balances` / `_account_available_balances`). -/
abbrev BalMap := List (Token × Amount)

/-- The overwrite half of the merge loop of `update_balances`: for every
`token, bal` pair of the response, `d[token] = Decimal(str(bal))`. -/
def overwriteAll (m : BalMap) (resp : BalMap) : BalMap :=
  resp.foldl (fun acc p => setA acc p.1 p.2) m

/-- The deletion half of the merge loop of `update_balances`:
`del d[asset_name]` for every stale asset name. -/
def removeAll (m : BalMap) (rem : List Token) : BalMap :=
  rem.foldl (fun acc t => delA acc t) m

/-- The balance merge of `update_balances` (lines 222-238): record the local
asset names, overwrite both maps with every token of the response, then delete
from both maps every local asset name absent from the response. -/
def mergeBalances (total avail resp : BalMap) : BalMap × BalMap :=
  let localNames := total.map Prod.fst
  let remoteNames := resp.map Prod.fst
  let toRemove := localNames.filter (fun t => decide (t ∉ remoteNames))
  (removeAll (overwriteAll total resp) toRemove,
   removeAll (overwriteAll avail resp) toRemove)

theorem lookupA_overwriteAll (m resp : BalMap) (s : String)
    (h : (resp.map Prod.fst).Nodup) :
    lookupA (overwriteAll m resp) s =
      match lookupA resp s with
      | some a => some a
      | none => lookupA m s := by
  induction resp generalizing m with
  | nil => simp [overwriteAll, lookupA]
  | cons hd tl ih =>
    obtain ⟨k, v⟩ := hd
    simp only [List.map_cons, List.nodup_cons] at h
    have hstep : overwriteAll m ((k, v) :: tl) = overwriteAll (setA m k v) tl := by
      simp [overwriteAll]
    rw [hstep, ih _ h.2]
    by_cases hs : s = k
    · subst hs
      have hnone : lookupA tl s = none :=
        lookupA_eq_none_of_not_mem tl s h.1
      simp [hnone, lookupA, lookupA_setA]
    · simp only [lookupA, if_neg hs]
      cases lookupA tl s with
      | some a => rfl
      | none => simp [lookupA_setA, hs]

theorem lookupA_removeAll (m : BalMap) (rem : List Token) (s : String) :
    lookupA (removeAll m rem) s = if s ∈ rem then none else lookupA m s := by
  induction rem generalizing m with
  | nil => simp [removeAll]
  | cons t ts ih =>
    have hstep : removeAll m (t :: ts) = removeAll (delA m t) ts := by
      simp [removeAll]
    rw [hstep, ih]
    by_cases hs : s = t
    · simp [hs, lookupA_delA]
    · by_cases hmem : s ∈ ts <;> simp [hs, hmem, lookupA_delA]

theorem mergeBalances_total (total avail resp : BalMap)
    (hnodup : (resp.map Prod.fst).Nodup) (s : String) :
    lookupA (mergeBalances total avail resp).1 s = lookupA resp s := by
  simp only [mergeBalances]
  rw [lookupA_removeAll, lookupA_overwriteAll _ _ _ hnodup]
  by_cases hmem : s ∈ (total.map Prod.fst).filter (fun t => decide (t ∉ resp.map Prod.fst))
  · have hr : s ∉ resp.map Prod.fst := by
      have := List.of_mem_filter hmem
      simpa using this
    rw [if_pos hmem, lookupA_eq_none_of_not_mem resp s hr]
  · simp only [if_neg hmem]
    cases hr : lookupA resp s with
    | some a => rfl
    | none =>
      have hrmem : s ∉ resp.map Prod.fst := not_mem_of_lookupA_eq_none resp s hr
      have htmem : s ∉ total.map Prod.fst := by
        intro hmem2
        exact hmem (List.mem_filter.mpr ⟨hmem2, by simpa using hrmem⟩)
      simp [lookupA_eq_none_of_not_mem total s htmem]

theorem mergeBalances_avail (total avail resp : BalMap)
    (hnodup : (resp.map Prod.fst).Nodup)
    (hkeys : ∀ t, (lookupA avail t).isSome = true → (lookupA total t).isSome = true)
    (s : String) :
    lookupA (mergeBalances total avail resp).2 s = lookupA resp s := by
  simp only [mergeBalances]
  rw [lookupA_removeAll, lookupA_overwriteAll _ _ _ hnodup]
  by_cases hmem : s ∈ (total.map Prod.fst).filter (fun t => decide (t ∉ resp.map Prod.fst))
  · have hr : s ∉ resp.map Prod.fst := by
      have := List.of_mem_filter hmem
      simpa using this
    rw [if_pos hmem, lookupA_eq_none_of_not_mem resp s hr]
  · simp only [if_neg hmem]
    cases hr : lookupA resp s with
    | some a => rfl
    | none =>
      have hrmem : s ∉ resp.map Prod.fst := not_mem_of_lookupA_eq_none resp s hr
      cases ha : lookupA avail s with
      | none => rfl
      | some a =>
        have htot : (lookupA total s).isSome = true := hkeys s (by simp [ha])
        have htmem : s ∈ total.map Prod.fst := mem_of_lookupA_isSome total s htot
        exact absurd (List.mem_filter.mpr ⟨htmem, by simpa using hrmem⟩) hmem

/-- Outcome of the network-status call made by `get_chain_info`: a JSON
object (whose optional `nativeCurrency` field defaults to `"ADA"`), a JSON
list (line 199 then skips the assignment), or a raised exception (line 203
logs it and returns). -/
inductive ChainInfoResp where
  | dict (nativeCurrency : Option Token)
  | listResp
  | err
deriving DecidableEq

/-- The connector state touched by balance reconciliation:
`_native_currency`, `_last_balance_poll_timestamp` and the two balance maps. -/
structure ConnState where
  nativeCurrency : Option Token
  lastBalanceTs : ℚ
  totalBal : BalMap
  availBal : BalMap
deriving DecidableEq

/-- `GatewayCardanoAMM.UPDATE_BALANCE_INTERVAL` (line 35). -/
def UPDATE_BALANCE_INTERVAL : ℚ := 30

/-- `GatewayCardanoAMM.get_chain_info` (lines 190-208): on a dict response
the native currency becomes `nativeCurrency` or the default `"ADA"`; a list
response and an exception both leave the state unchanged (the exception is
logged, not raised). -/
def get_chain_info (st : ConnState) (r : ChainInfoResp) : ConnState :=
  match r with
  | ChainInfoResp.dict nc => { st with nativeCurrency := some (nc.getD "ADA") }
  | ChainInfoResp.listResp => st
  | ChainInfoResp.err => st

/-- The token list requested by `update_balances` (line 224):
`list(self._tokens) + [self._native_currency] + connector_tokens`; the native
currency slot is `None` when it was never resolved. -/
def token_list (tokens : List Token) (native : Option Token)
    (connectorTokens : List Token) : List (Option Token) :=
  tokens.map some ++ [native] ++ connectorTokens.map some

/-- `GatewayCardanoAMM.update_balances` (lines 211-241): resolve the native
currency lazily when unknown, then, unless debounced (`on_interval` set and
elapsed time since the last balance poll not above the interval), record the
poll timestamp and merge the fetched balance snapshot `resp` into both
balance maps. -/
def update_balances (st : ConnState) (on_interval : Bool) (current_tick : ℚ)
    (chainResp : ChainInfoResp) (resp : BalMap) : ConnState :=
  let st1 := if st.nativeCurrency = none then get_chain_info st chainResp else st
  if on_interval = false ∨ current_tick - st1.lastBalanceTs > UPDATE_BALANCE_INTERVAL then
    { st1 with
      lastBalanceTs := current_tick,
      totalBal := (mergeBalances st1.totalBal st1.availBal resp).1,
      availBal := (mergeBalances st1.totalBal st1.availBal resp).2 }
  else st1

theorem get_chain_info_totalBal (st : ConnState) (r : ChainInfoResp) :
    (get_chain_info st r).totalBal = st.totalBal := by
  cases r <;> rfl

theorem get_chain_info_availBal (st : ConnState) (r : ChainInfoResp) :
    (get_chain_info st r).availBal = st.availBal := by
  cases r <;> rfl

theorem get_chain_info_lastBalanceTs (st : ConnState) (r : ChainInfoResp) :
    (get_chain_info st r).lastBalanceTs = st.lastBalanceTs := by
  cases r <;> rfl

theorem update_balances_force_totalBal (st : ConnState) (cur : ℚ)
    (cr : ChainInfoResp) (resp : BalMap) :
    (update_balances st false cur cr resp).totalBal =
      (mergeBalances st.totalBal st.availBal resp).1 := by
  by_cases hn : st.nativeCurrency = none
  · cases cr <;> simp [update_balances, hn, get_chain_info]
  · simp [update_balances, hn]

theorem update_balances_force_availBal (st : ConnState) (cur : ℚ)
    (cr : ChainInfoResp) (resp : BalMap) :
    (update_balances st false cur cr resp).availBal =
      (mergeBalances st.totalBal st.availBal resp).2 := by
  by_cases hn : st.nativeCurrency = none
  · cases cr <;> simp [update_balances, hn, get_chain_info]
  · simp [update_balances, hn]

theorem update_balances_skip (st : ConnState) (cur : ℚ)
    (cr : ChainInfoResp) (resp : BalMap)
    (h : ¬ (cur - st.lastBalanceTs > UPDATE_BALANCE_INTERVAL)) :
    update_balances st true cur cr resp =
      if st.nativeCurrency = none then get_chain_info st cr else st := by
  by_cases hn : st.nativeCurrency = none
  · cases cr <;> simp [update_balances, hn, get_chain_info, h]
  · simp [update_balances, hn, h]

/-- Claim C2: a forced balance reconciliation pass leaves the total and
available balance maps holding exactly the tokens of the response with
exactly the response amounts: every token returned is overwritten and every
locally held token absent from the response is deleted.  The response is a
JSON object, so its keys are distinct; the data model keeps the pair of
balance maps on a common key set (every code path writes both together), so
the available map carries no key outside the total map. -/
theorem update_balances_full_replace (st : ConnState) (cur : ℚ)
    (cr : ChainInfoResp) (resp : BalMap)
    (hnodup : (resp.map Prod.fst).Nodup)
    (hkeys : ∀ t, (lookupA st.availBal t).isSome = true →
      (lookupA st.totalBal t).isSome = true) :
    (∀ t, lookupA (update_balances st false cur cr resp).totalBal t = lookupA resp t) ∧
    (∀ t, lookupA (update_balances st false cur cr resp).availBal t = lookupA resp t) := by
  constructor
  · intro t
    rw [update_balances_force_totalBal]
    exact mergeBalances_total st.totalBal st.availBal resp hnodup t
  · intro t
    rw [update_balances_force_availBal]
    exact mergeBalances_avail st.totalBal st.availBal resp hnodup hkeys t

/-- Claim C2 witness: prior state `A: 3, C: 1` in both maps, response
`A: 5, B: 2`; the pass yields exactly `A: 5, B: 2` and `C` is removed. -/
theorem update_balances_full_replace_witness :
    lookupA (update_balances ⟨some "ADA", 0, [("A", 3), ("C", 1)], [("A", 3), ("C", 1)]⟩
      false 100 ChainInfoResp.err [("A", 5), ("B", 2)]).totalBal "A" = some 5 ∧
    lookupA (update_balances ⟨some "ADA", 0, [("A", 3), ("C", 1)], [("A", 3), ("C", 1)]⟩
      false 100 ChainInfoResp.err [("A", 5), ("B", 2)]).totalBal "C" = none ∧
    lookupA (update_balances ⟨some "ADA", 0, [("A", 3), ("C", 1)], [("A", 3), ("C", 1)]⟩
      false 100 ChainInfoResp.err [("A", 5), ("B", 2)]).availBal "B" = some 2 ∧
    lookupA (update_balances ⟨some "ADA", 0, [("A", 3), ("C", 1)], [("A", 3), ("C", 1)]⟩
      false 100 ChainInfoResp.err [("A", 5), ("B", 2)]).availBal "C" = none :=
  ⟨((update_balances_full_replace _ _ _ _ (by decide) (fun t h => h)).1 "A").trans (by decide),
   ((update_balances_full_replace _ _ _ _ (by decide) (fun t h => h)).1 "C").trans (by decide),
   ((update_balances_full_replace _ _ _ _ (by decide) (fun t h => h)).2 "B").trans (by decide),
   ((update_balances_full_replace _ _ _ _ (by decide) (fun t h => h)).2 "C").trans (by decide)⟩

/-- Claim C5: with `on_interval` set, `update_balances` leaves the balance
maps and the poll timestamp unchanged whenever the elapsed time since the
last balance poll does not exceed `UPDATE_BALANCE_INTERVAL` (30); with
`on_interval` unset it always merges the fetched snapshot, bypassing the
debounce. -/
theorem update_balances_debounce_policy (st : ConnState) (cur : ℚ)
    (cr : ChainInfoResp) (resp : BalMap)
    (h : ¬ (cur - st.lastBalanceTs > UPDATE_BALANCE_INTERVAL)) :
    (update_balances st true cur cr resp).totalBal = st.totalBal ∧
    (update_balances st true cur cr resp).availBal = st.availBal ∧
    (update_balances st true cur cr resp).lastBalanceTs = st.lastBalanceTs ∧
    (update_balances st false cur cr resp).totalBal =
      (mergeBalances st.totalBal st.availBal resp).1 ∧
    (update_balances st false cur cr resp).availBal =
      (mergeBalances st.totalBal st.availBal resp).2 := by
  refine ⟨?_, ?_, ?_, update_balances_force_totalBal st cur cr resp,
    update_balances_force_availBal st cur cr resp⟩
  · rw [update_balances_skip st cur cr resp h]
    by_cases hn : st.nativeCurrency = none <;> simp [hn, get_chain_info_totalBal]
  · rw [update_balances_skip st cur cr resp h]
    by_cases hn : st.nativeCurrency = none <;> simp [hn, get_chain_info_availBal]
  · rw [update_balances_skip st cur cr resp h]
    by_cases hn : st.nativeCurrency = none <;> simp [hn, get_chain_info_lastBalanceTs]

/-- Claim C5 witness: ten time units after the last poll the interval pass
leaves the maps untouched, while a forced pass merges the snapshot. -/
theorem update_balances_debounce_policy_witness :
    ¬ ((10 : ℚ) - 0 > UPDATE_BALANCE_INTERVAL) ∧
    (update_balances ⟨some "ADA", 0, [("A", 3)], [("A", 3)]⟩
      true 10 ChainInfoResp.err [("B", 7)]).totalBal = [("A", (3 : ℚ))] ∧
    (update_balances ⟨some "ADA", 0, [("A", 3)], [("A", 3)]⟩
      false 10 ChainInfoResp.err [("B", 7)]).totalBal = [("B", (7 : ℚ))] :=
  ⟨by norm_num [UPDATE_BALANCE_INTERVAL],
   (update_balances_debounce_policy ⟨some "ADA", 0, [("A", 3)], [("A", 3)]⟩
      10 ChainInfoResp.err [("B", 7)] (by norm_num [UPDATE_BALANCE_INTERVAL])).1,
   ((update_balances_debounce_policy ⟨some "ADA", 0, [("A", 3)], [("A", 3)]⟩
      10 ChainInfoResp.err [("B", 7)] (by norm_num [UPDATE_BALANCE_INTERVAL])).2.2.2.1).trans (by decide)⟩

/-- Claim C6 counterexample: with the native currency unknown and its lazy
resolution failing (`get_chain_info` swallows the exception), a reconciliation
pass is NOT deferred: `update_balances` still fetches and merges, so the
balance maps change while the native currency is still unknown. -/
theorem update_balances_no_native_gate_counterexample :
    (update_balances ⟨none, 0, [], []⟩ false 100 ChainInfoResp.err
      [("ADA", 5)]).nativeCurrency = none ∧
    (update_balances ⟨none, 0, [], []⟩ false 100 ChainInfoResp.err
      [("ADA", 5)]).totalBal = [("ADA", (5 : ℚ))] ∧
    (update_balances ⟨none, 0, [], []⟩ false 100 ChainInfoResp.err
      [("ADA", 5)]).availBal = [("ADA", (5 : ℚ))] := by
  decide

/-- Claim C6 amended: when the native currency is unknown, `update_balances`
first attempts its lazy resolution, and a resolution failure is reported
without erroring out of the loop; but the reconciliation pass is not
deferred — the fetch and merge still proceed, with the unresolved native
currency included in the requested token list as a null slot. -/
theorem update_balances_no_native_gate (st : ConnState) (cur : ℚ) (resp : BalMap)
    (tokens connectorTokens : List Token)
    (hnat : st.nativeCurrency = none) :
    (update_balances st false cur ChainInfoResp.err resp).nativeCurrency = none ∧
    (update_balances st false cur ChainInfoResp.err resp).totalBal =
      (mergeBalances st.totalBal st.availBal resp).1 ∧
    (update_balances st false cur ChainInfoResp.err resp).availBal =
      (mergeBalances st.totalBal st.availBal resp).2 ∧
    none ∈ token_list tokens st.nativeCurrency connectorTokens := by
  refine ⟨?_, update_balances_force_totalBal st cur ChainInfoResp.err resp,
    update_balances_force_availBal st cur ChainInfoResp.err resp, ?_⟩
  · simp [update_balances, hnat, get_chain_info]
  · simp [token_list, hnat]

/-- Claim C6 amended witness: concrete unresolved-native state where the
merge still happens. -/
theorem update_balances_no_native_gate_witness :
    (update_balances ⟨none, 0, [("X", 1)], [("X", 1)]⟩ false 100 ChainInfoResp.err
      [("ADA", 5)]).nativeCurrency = none ∧
    (update_balances ⟨none, 0, [("X", 1)], [("X", 1)]⟩ false 100 ChainInfoResp.err
      [("ADA", 5)]).totalBal =
      (mergeBalances [("X", 1)] [("X", 1)] [("ADA", 5)]).1 ∧
    (update_balances ⟨none, 0, [("X", 1)], [("X", 1)]⟩ false 100 ChainInfoResp.err
      [("ADA", 5)]).availBal =
      (mergeBalances [("X", 1)] [("X", 1)] [("ADA", 5)]).2 ∧
    none ∈ token_list ["ADA"] (none : Option Token) [] :=
  update_balances_no_native_gate ⟨none, 0, [("X", 1)], [("X", 1)]⟩ 100
    [("ADA", 5)] ["ADA"] [] rfl

/-- Claim C10: a reconciliation pass that performs a merge assigns every
token of the response the same amount in both maps, so a pair of pointwise
equal balance maps stays pointwise equal through `update_balances`: the
available and total balances never diverge through balance reconciliation
alone. -/
theorem update_balances_avail_eq_total (st : ConnState) (cur : ℚ)
    (cr : ChainInfoResp) (resp : BalMap)
    (hnodup : (resp.map Prod.fst).Nodup)
    (heq : ∀ t, lookupA st.availBal t = lookupA st.totalBal t) :
    ∀ t, lookupA (update_balances st false cur cr resp).availBal t =
      lookupA (update_balances st false cur cr resp).totalBal t := by
  intro t
  rw [update_balances_force_totalBal, update_balances_force_availBal]
  rw [mergeBalances_total st.totalBal st.availBal resp hnodup t]
  exact mergeBalances_avail st.totalBal st.availBal resp hnodup
    (fun u hu => heq u ▸ hu) t

/-- Claim C10 witness: concrete pass on pointwise equal maps. -/
theorem update_balances_avail_eq_total_witness :
    lookupA (update_balances ⟨some "ADA", 0, [("A", 3), ("C", 1)], [("A", 3), ("C", 1)]⟩
      false 100 ChainInfoResp.err [("A", 5), ("B", 2)]).availBal "A" =
    lookupA (update_balances ⟨some "ADA", 0, [("A", 3), ("C", 1)], [("A", 3), ("C", 1)]⟩
      false 100 ChainInfoResp.err [("A", 5), ("B", 2)]).totalBal "A" :=
  update_balances_avail_eq_total ⟨some "ADA", 0, [("A", 3), ("C", 1)], [("A", 3), ("C", 1)]⟩
    100 ChainInfoResp.err [("A", 5), ("B", 2)] (by decide) (fun t => rfl) "A"

/-- `TradeType` (BUY / SELL). -/
inductive TradeType where
  | BUY
  | SELL
deriving DecidableEq

/-- `side.name.lower()` for a trade side. -/
def TradeType.nameLower : TradeType → String
  | TradeType.BUY => "buy"
  | TradeType.SELL => "sell"

/-- The order lifecycle states used by the connector. -/
inductive OrderState where
  | PENDING_CREATE
  | PENDING_APPROVAL
  | OPEN
  | PENDING_CANCEL
  | FILLED
  | FAILED
  | CANCELED
deriving DecidableEq

/-- Terminal states: `FILLED`, `FAILED`, `CANCELED`. -/
def OrderState.isTerminal : OrderState → Bool
  | OrderState.FILLED => true
  | OrderState.FAILED => true
  | OrderState.CANCELED => true
  | _ => false

/-- The order record tracked by the registry (`GatewayInFlightOrder`):
identity, trading attributes, current state and accumulated fee. -/
structure InFlightOrder where
  client_order_id : String
  exchange_order_id : Option String
  trading_pair : String
  trade_type : TradeType
  price : Amount
  amount : Amount
  gas_price : Amount
  creation_timestamp : ℚ
  last_update_timestamp : ℚ
  current_state : OrderState
  fee : Option Amount
deriving DecidableEq

/-- An `OrderUpdate` report fed to the registry. -/
structure OrderUpdate where
  client_order_id : String
  exchange_order_id : Option String
  new_state : OrderState
  update_timestamp : ℚ
deriving DecidableEq

/-- Modelled from the spec: `ClientOrderTracker.process_order_update` — the
tracker class is not among the sources, only its callers are.  Spec 4.1
`apply_update`: an unknown order id is a warning and a no-op; an order
already in a terminal state ignores the update, which is never applied;
otherwise the update installs the new state, the update timestamp and, when
reported, the exchange order id. -/
def process_order_update (reg : List (String × InFlightOrder)) (u : OrderUpdate) :
    List (String × InFlightOrder) :=
  match lookupA reg u.client_order_id with
  | none => reg
  | some o =>
    if o.current_state.isTerminal = true then reg
    else
      setA reg u.client_order_id
        { o with
          current_state := u.new_state,
          last_update_timestamp := u.update_timestamp,
          exchange_order_id :=
            match u.exchange_order_id with
            | some e => some e
            | none => o.exchange_order_id }

/-- The registry plus the per-order not-found counters kept by the tracker. -/
structure TrackerState where
  orders : List (String × InFlightOrder)
  notFound : List (String × Nat)
deriving DecidableEq

/-- The tracker is constructed with `lost_order_count_limit=10` (line 76). -/
def lost_order_count_limit : Nat := 10

/-- Modelled from the spec: `ClientOrderTracker.process_order_not_found` —
the tracker class is not among the sources.  Spec 4.1 `mark_not_found`:
count consecutive not-found reports; after the limit (10) the order
transitions to `FAILED`. -/
def process_order_not_found (ts : TrackerState) (cid : String) (now : ℚ) :
    TrackerState :=
  let c := (lookupA ts.notFound cid).getD 0 + 1
  if c < lost_order_count_limit then
    { ts with notFound := setA ts.notFound cid c }
  else
    { orders := process_order_update ts.orders ⟨cid, none, OrderState.FAILED, now⟩,
      notFound := setA ts.notFound cid c }

/-- Modelled from the spec: `processs_trade_fill_update` is called at line 451
but defined nowhere in the sources.  Spec 4.2: on a fill the computed fee is
recorded on the order (fee and fill event emission for bookkeeping). -/
def process_trade_fill_update (ts : TrackerState) (ord : InFlightOrder)
    (fee : Amount) : TrackerState :=
  match lookupA ts.orders ord.client_order_id with
  | none => ts
  | some o =>
    { ts with orders := setA ts.orders ord.client_order_id { o with fee := some fee } }

/-- The transaction receipt of a status response: its optional `status`
field and its `gasUsed` field. -/
structure TxReceipt where
  status : Option Int
  gasUsed : Int
deriving DecidableEq

/-- A transaction-status response: whether the `txHash` key is present, the
`txStatus` code and the optional `txReceipt`. -/
structure TxDetails where
  hasTxHash : Bool
  txStatus : Int
  txReceipt : Option TxReceipt
deriving DecidableEq

/-- `tx_receipt is not None and tx_receipt.get("status") == n`. -/
def receiptStatusIs (d : TxDetails) (n : Int) : Bool :=
  match d.txReceipt with
  | some rc => rc.status == some n
  | none => false

/-- The fee computed at line 449:
`Decimal(str(gas_used)) * Decimal(str(gas_price)) / Decimal(str(1e9))`. -/
def feeOf (gasUsed : Int) (gasPrice : Amount) : Amount :=
  (gasUsed : ℚ) * gasPrice / 1000000000

/-- The per-order dispatch of `update_order_status` (lines 444-471): a
success status with a successful receipt records the fill fee and applies a
`FILLED` update; statuses 0, 2 and 3 (in the mempool, ambiguous outcome) are
an explicit no-transition branch; status -1 or a receipt marked failed
reports the order as not found. -/
def process_tx_details (ts : TrackerState) (ord : InFlightOrder) (d : TxDetails)
    (now : ℚ) : TrackerState :=
  if d.txStatus = 1 ∧ receiptStatusIs d 1 = true then
    let gasUsed : Int :=
      match d.txReceipt with
      | some rc => rc.gasUsed
      | none => 0
    let fee : Amount := feeOf gasUsed ord.gas_price
    let ts1 := process_trade_fill_update ts ord fee
    { ts1 with
      orders := process_order_update ts1.orders
        ⟨ord.client_order_id, none, OrderState.FILLED, now⟩ }
  else if d.txStatus = 0 ∨ d.txStatus = 2 ∨ d.txStatus = 3 then
    ts
  else if d.txStatus = -1 ∨ receiptStatusIs d 0 = true then
    process_order_not_found ts ord.client_order_id now
  else
    ts

/-- One zipped `tracked_order, tx_details` pair of `update_order_status`
(lines 436-443): a gathered exception is logged and skipped, a response
without a `txHash` field is logged and skipped, anything else is dispatched. -/
def process_tx_result (ts : TrackerState) (ord : InFlightOrder)
    (r : Except Unit TxDetails) (now : ℚ) : TrackerState :=
  match r with
  | Except.error _ => ts
  | Except.ok d => if d.hasTxHash = false then ts else process_tx_details ts ord d now

/-- `GatewayCardanoAMM.update_order_status`: fold the per-order dispatch over
the zipped list of tracked orders and gathered query results
(`return_exceptions=True` turns per-order failures into list entries). -/
def update_order_status (ts : TrackerState)
    (polled : List (InFlightOrder × Except Unit TxDetails)) (now : ℚ) : TrackerState :=
  polled.foldl (fun s p => process_tx_result s p.1 p.2 now) ts

/-- `GatewayCardanoAMM.create_market_order_id` (lines 181-183). -/
def create_market_order_id (side : TradeType) (trading_pair : String) : String :=
  side.nameLower ++ "-" ++ trading_pair

/-- The client order id returned by `GatewayCardanoAMM.place_order`
(lines 272-284): the side is BUY when `is_buy`, and the returned id is
`create_market_order_id(side, trading_pair)`. -/
def place_order_id (is_buy : Bool) (trading_pair : String) : String :=
  create_market_order_id (if is_buy then TradeType.BUY else TradeType.SELL) trading_pair

theorem process_order_update_preserves_terminal (reg : List (String × InFlightOrder))
    (u : OrderUpdate) (cid : String) (o : InFlightOrder)
    (hfound : lookupA reg cid = some o)
    (hterm : o.current_state.isTerminal = true) :
    lookupA (process_order_update reg u) cid = some o := by
  unfold process_order_update
  by_cases hc : u.client_order_id = cid
  · rw [hc, hfound]
    simp [hterm, hfound]
  · cases hl : lookupA reg u.client_order_id with
    | none => simpa [hl] using hfound
    | some o2 =>
      by_cases ht2 : o2.current_state.isTerminal = true
      · simp [hl, ht2, hfound]
      · simp only [hl, ht2, Bool.false_eq_true, if_false]
        rw [lookupA_setA, if_neg (fun h => hc h.symm)]
        exact hfound

/-- Claim C1: once a tracked order has reached a terminal state (FILLED,
FAILED or CANCELED), no sequence of later updates fed through the registry
update operation changes its record: terminal states are locked against
duplicate and out-of-order status reports. -/
theorem terminal_state_locked (us : List OrderUpdate)
    (reg : List (String × InFlightOrder)) (cid : String) (o : InFlightOrder)
    (hfound : lookupA reg cid = some o)
    (hterm : o.current_state.isTerminal = true) :
    lookupA (us.foldl process_order_update reg) cid = some o := by
  induction us generalizing reg with
  | nil => simpa using hfound
  | cons u rest ih =>
    simp only [List.foldl_cons]
    exact ih (process_order_update reg u)
      (process_order_update_preserves_terminal reg u cid o hfound hterm)

/-- A FILLED sample order for the terminal-lock witness. -/
def filledSampleOrder : InFlightOrder :=
  { client_order_id := "buy-ADA-USDT", exchange_order_id := some "0xabc",
    trading_pair := "ADA-USDT", trade_type := TradeType.BUY, price := 1,
    amount := 10, gas_price := 2, creation_timestamp := 0,
    last_update_timestamp := 3, current_state := OrderState.FILLED, fee := some 1 }

/-- Claim C1 witness: a late duplicate FAILED report applied to an order
already FILLED leaves the order FILLED (its record is unchanged). -/
theorem terminal_state_locked_witness :
    lookupA [("buy-ADA-USDT", filledSampleOrder)] "buy-ADA-USDT" = some filledSampleOrder ∧
    filledSampleOrder.current_state.isTerminal = true ∧
    lookupA (List.foldl process_order_update [("buy-ADA-USDT", filledSampleOrder)]
      [⟨"buy-ADA-USDT", none, OrderState.FAILED, 9⟩]) "buy-ADA-USDT" = some filledSampleOrder :=
  ⟨by decide, by decide,
   terminal_state_locked [⟨"buy-ADA-USDT", none, OrderState.FAILED, 9⟩]
    [("buy-ADA-USDT", filledSampleOrder)] "buy-ADA-USDT" filledSampleOrder
    (by decide) (by decide)⟩

/-- Claim C3 (code bug): the client order id returned by `place_order` is a
pure function of the side and the trading pair — `create_market_order_id`
appends no nonce — so a second `place_order` call with the same side and
pair returns the identical id, violating the uniqueness invariant. -/
theorem duplicate_client_order_id :
    place_order_id true "ADA-USDT" = "buy-ADA-USDT" ∧
    create_market_order_id TradeType.BUY "ADA-USDT" = "buy-ADA-USDT" := by
  constructor <;> rfl

/-- An OPEN sample tracked order with gas price 2. -/
def openSampleOrder : InFlightOrder :=
  { client_order_id := "buy-ADA-USDT", exchange_order_id := some "0xabc",
    trading_pair := "ADA-USDT", trade_type := TradeType.BUY, price := 1,
    amount := 10, gas_price := 2, creation_timestamp := 0,
    last_update_timestamp := 0, current_state := OrderState.OPEN, fee := none }

/-- A success status response: txStatus 1, receipt status 1, gasUsed 3. -/
def successDetails : TxDetails :=
  { hasTxHash := true, txStatus := 1,
    txReceipt := some { status := some 1, gasUsed := 3 } }

theorem process_success_fill (ts : TrackerState) (ord : InFlightOrder)
    (d : TxDetails) (rc : TxReceipt) (now : ℚ)
    (hfound : lookupA ts.orders ord.client_order_id = some ord)
    (hterm : ord.current_state.isTerminal = false)
    (hhash : d.hasTxHash = true)
    (hstatus : d.txStatus = 1)
    (hrc : d.txReceipt = some rc)
    (hrcs : rc.status = some 1) :
    lookupA (process_tx_result ts ord (Except.ok d) now).orders ord.client_order_id =
      some { ord with
             current_state := OrderState.FILLED,
             last_update_timestamp := now,
             fee := some (feeOf rc.gasUsed ord.gas_price) } := by
  simp [process_tx_result, process_tx_details, process_trade_fill_update,
        process_order_update, receiptStatusIs, hhash, hstatus, hrc, hrcs,
        hfound, hterm, lookupA_setA]

/-- Claim C4 counterexample: with gasUsed 3 and gas price 2 the recorded fee
is 3 * 2 / 10^9 — line 449 divides the product by `Decimal(str(1e9))` — and
not the claimed consumed_resource * unit_price = 6. -/
theorem fill_fee_counterexample :
    (lookupA (process_tx_result ⟨[("buy-ADA-USDT", openSampleOrder)], []⟩
        openSampleOrder (Except.ok successDetails) 7).orders "buy-ADA-USDT").map
      InFlightOrder.fee = some (some ((3 : ℚ) * 2 / 1000000000)) ∧
    ¬ ((3 : ℚ) * 2 / 1000000000 = (3 : ℚ) * 2) := by
  constructor
  · have h := process_success_fill ⟨[("buy-ADA-USDT", openSampleOrder)], []⟩
      openSampleOrder successDetails ⟨some 1, 3⟩ 7 (by decide) (by decide)
      rfl rfl rfl rfl
    rw [show openSampleOrder.client_order_id = "buy-ADA-USDT" from rfl] at h
    rw [h]
    norm_num [feeOf, openSampleOrder]
  · norm_num

/-- Claim C4 amended: a success status with a successful receipt transitions
the tracked order to FILLED and records fee = gasUsed * gas_price / 10^9
(the product is scaled by the fixed 1e9 divisor of line 449), in exact
decimal arithmetic with no floating rounding drift. -/
theorem fill_fee_and_state (ts : TrackerState) (ord : InFlightOrder)
    (d : TxDetails) (rc : TxReceipt) (now : ℚ)
    (hfound : lookupA ts.orders ord.client_order_id = some ord)
    (hterm : ord.current_state.isTerminal = false)
    (hhash : d.hasTxHash = true)
    (hstatus : d.txStatus = 1)
    (hrc : d.txReceipt = some rc)
    (hrcs : rc.status = some 1) :
    lookupA (process_tx_result ts ord (Except.ok d) now).orders ord.client_order_id =
      some { ord with
             current_state := OrderState.FILLED,
             last_update_timestamp := now,
             fee := some (feeOf rc.gasUsed ord.gas_price) } :=
  process_success_fill ts ord d rc now hfound hterm hhash hstatus hrc hrcs

/-- Claim C4 amended witness: the success response fills the OPEN sample
order and records fee 3 * 2 / 10^9. -/
theorem fill_fee_and_state_witness :
    lookupA (process_tx_result ⟨[("buy-ADA-USDT", openSampleOrder)], []⟩
        openSampleOrder (Except.ok successDetails) 7).orders "buy-ADA-USDT" =
      some { openSampleOrder with
             current_state := OrderState.FILLED,
             last_update_timestamp := 7,
             fee := some (feeOf 3 openSampleOrder.gas_price) } :=
  fill_fee_and_state ⟨[("buy-ADA-USDT", openSampleOrder)], []⟩ openSampleOrder
    successDetails ⟨some 1, 3⟩ 7 (by decide) (by decide) rfl rfl rfl rfl

/-- A failed status query for one order: a gathered exception or a response
missing the txHash field. -/
def failedQuery (r : Except Unit TxDetails) : Prop :=
  match r with
  | Except.error _ => True
  | Except.ok d => d.hasTxHash = false

theorem process_tx_result_failed (ts : TrackerState) (ord : InFlightOrder)
    (r : Except Unit TxDetails) (now : ℚ) (h : failedQuery r) :
    process_tx_result ts ord r now = ts := by
  cases r with
  | error e => rfl
  | ok d =>
    have hd : d.hasTxHash = false := h
    simp [process_tx_result, hd]

/-- Claim C7: a polling cycle over a list of tracked orders in which one
query raised an exception (or returned a response without a txHash field)
produces exactly the tracker state of the cycle without that entry: the
failing order is left unchanged and every other order is processed as
usual — the failure never aborts the cycle. -/
theorem update_order_status_isolates (ts : TrackerState)
    (pre post : List (InFlightOrder × Except Unit TxDetails))
    (ord : InFlightOrder) (r : Except Unit TxDetails) (now : ℚ)
    (h : failedQuery r) :
    update_order_status ts (pre ++ (ord, r) :: post) now =
      update_order_status ts (pre ++ post) now := by
  simp only [update_order_status, List.foldl_append, List.foldl_cons]
  congr 1
  exact process_tx_result_failed _ _ _ _ h

/-- Claim C7 witness: one exception entry among the polled orders drops out
of the fold. -/
theorem update_order_status_isolates_witness :
    failedQuery (Except.error (() : Unit)) ∧
    update_order_status ⟨[("buy-ADA-USDT", openSampleOrder)], []⟩
        ([] ++ (openSampleOrder, Except.error ()) ::
          [(openSampleOrder, Except.ok successDetails)]) 7 =
      update_order_status ⟨[("buy-ADA-USDT", openSampleOrder)], []⟩
        ([] ++ [(openSampleOrder, Except.ok successDetails)]) 7 :=
  ⟨True.intro,
   update_order_status_isolates ⟨[("buy-ADA-USDT", openSampleOrder)], []⟩ []
    [(openSampleOrder, Except.ok successDetails)] openSampleOrder
    (Except.error ()) 7 True.intro⟩

/-- Claim C8: a status response with an ambiguous mempool status (txStatus
0, 2 or 3) applies no transition at all: the tracker state — the order
record, its exchange id and fee, and the not-found counters — is returned
unchanged, so the order stays active and is re-polled next cycle. -/
theorem ambiguous_status_no_transition (ts : TrackerState) (ord : InFlightOrder)
    (d : TxDetails) (now : ℚ)
    (h : d.txStatus = 0 ∨ d.txStatus = 2 ∨ d.txStatus = 3) :
    process_tx_result ts ord (Except.ok d) now = ts := by
  by_cases hh : d.hasTxHash = false
  · simp [process_tx_result, hh]
  · rcases h with h | h | h <;>
      simp [process_tx_result, hh, process_tx_details, receiptStatusIs, h]

/-- Claim C8 witness: status 2 (in the mempool, likely to succeed) leaves
the tracker state untouched even with a failure-marked receipt attached. -/
theorem ambiguous_status_no_transition_witness :
    ((2 : Int) = 0 ∨ (2 : Int) = 2 ∨ (2 : Int) = 3) ∧
    process_tx_result ⟨[("buy-ADA-USDT", openSampleOrder)], []⟩ openSampleOrder
        (Except.ok ⟨true, 2, some ⟨some 0, 5⟩⟩) 7 =
      ⟨[("buy-ADA-USDT", openSampleOrder)], []⟩ :=
  ⟨Or.inr (Or.inl rfl),
   ambiguous_status_no_transition ⟨[("buy-ADA-USDT", openSampleOrder)], []⟩
    openSampleOrder ⟨true, 2, some ⟨some 0, 5⟩⟩ 7 (Or.inr (Or.inl rfl))⟩

/-- Modelled from the spec: the serialized order record produced by
`GatewayInFlightOrder.to_json` (the order class is not among the sources) —
spec 6: the persisted layout is a serialized Order Record carrying all the
attributes of the data model. -/
structure OrderJson where
  client_order_id : String
  exchange_order_id : Option String
  trading_pair : String
  trade_type : TradeType
  price : Amount
  amount : Amount
  gas_price : Amount
  creation_timestamp : ℚ
  last_update_timestamp : ℚ
  current_state : OrderState
  fee : Option Amount
deriving DecidableEq

/-- Modelled from the spec: `GatewayInFlightOrder.to_json` (not among the
sources) — serializes every attribute of the order record. -/
def InFlightOrder.to_json (o : InFlightOrder) : OrderJson :=
  ⟨o.client_order_id, o.exchange_order_id, o.trading_pair, o.trade_type,
   o.price, o.amount, o.gas_price, o.creation_timestamp,
   o.last_update_timestamp, o.current_state, o.fee⟩

/-- Modelled from the spec: `GatewayInFlightOrder.from_json` (not among the
sources) — rebuilds the order record from its serialized attributes. -/
def OrderJson.from_json (j : OrderJson) : InFlightOrder :=
  ⟨j.client_order_id, j.exchange_order_id, j.trading_pair, j.trade_type,
   j.price, j.amount, j.gas_price, j.creation_timestamp,
   j.last_update_timestamp, j.current_state, j.fee⟩

theorem from_json_to_json (o : InFlightOrder) :
    OrderJson.from_json (InFlightOrder.to_json o) = o := rfl

/-- Modelled from the spec: `ClientOrderTracker.active_orders` (the tracker
class is not among the sources) — the active view holds the non-terminal
orders; spec 3: an order is removed from the active view once it reaches a
terminal state. -/
def active_orders (reg : List (String × InFlightOrder)) :
    List (String × InFlightOrder) :=
  reg.filter (fun p => !p.2.current_state.isTerminal)

/-- `GatewayCardanoAMM.in_flight_orders` (lines 156-158): the tracker's
active orders. -/
def in_flight_orders (reg : List (String × InFlightOrder)) :
    List (String × InFlightOrder) :=
  active_orders reg

/-- `GatewayCardanoAMM.tracking_states` (lines 160-168): serialize the
current in-flight (active) orders, keyed by client order id. -/
def tracking_states (reg : List (String × InFlightOrder)) :
    List (String × OrderJson) :=
  (in_flight_orders reg).map (fun p => (p.1, InFlightOrder.to_json p.2))

/-- `GatewayCardanoAMM.restore_tracking_states` (lines 170-179): update the
tracker registry with the deserialized saved states. -/
def restore_tracking_states (reg : List (String × InFlightOrder))
    (saved : List (String × OrderJson)) : List (String × InFlightOrder) :=
  saved.foldl (fun r p => setA r p.1 (OrderJson.from_json p.2)) reg

theorem lookupA_mapSnd {α β : Type} (f : α → β) (l : List (String × α)) (s : String) :
    lookupA (l.map (fun p => (p.1, f p.2))) s = (lookupA l s).map f := by
  induction l with
  | nil => rfl
  | cons hd tl ih =>
    obtain ⟨k, v⟩ := hd
    by_cases hs : s = k <;> simp [lookupA, hs, ih]

theorem lookupA_filter_pos {α : Type} (p : String × α → Bool)
    (l : List (String × α)) (s : String) (v : α)
    (hl : lookupA l s = some v) (hp : p (s, v) = true) :
    lookupA (l.filter p) s = some v := by
  induction l with
  | nil => simp [lookupA] at hl
  | cons hd tl ih =>
    obtain ⟨k, w⟩ := hd
    by_cases hs : s = k
    · simp only [lookupA, if_pos hs] at hl
      obtain rfl : w = v := Option.some.inj hl
      subst hs
      simp [List.filter_cons, hp, lookupA]
    · simp only [lookupA, if_neg hs] at hl
      by_cases hw : p (k, w) = true
      · simp [List.filter_cons, hw, lookupA, hs, ih hl]
      · simp [List.filter_cons, hw, ih hl]

theorem mapSnd_keys {α β : Type} (f : α → β) (l : List (String × α)) :
    (l.map (fun p => (p.1, f p.2))).map Prod.fst = l.map Prod.fst := by
  induction l with
  | nil => rfl
  | cons hd tl ih => simp [ih]

theorem tracking_states_keys_nodup (reg : List (String × InFlightOrder))
    (h : (reg.map Prod.fst).Nodup) :
    ((tracking_states reg).map Prod.fst).Nodup := by
  have h1 : (tracking_states reg).map Prod.fst =
      (active_orders reg).map Prod.fst := mapSnd_keys _ _
  rw [h1]
  exact List.Nodup.sublist (List.Sublist.map Prod.fst (List.filter_sublist reg)) h

theorem lookupA_restore (r : List (String × InFlightOrder))
    (saved : List (String × OrderJson)) (s : String)
    (h : (saved.map Prod.fst).Nodup) :
    lookupA (restore_tracking_states r saved) s =
      match lookupA saved s with
      | some j => some (OrderJson.from_json j)
      | none => lookupA r s := by
  induction saved generalizing r with
  | nil => simp [restore_tracking_states, lookupA]
  | cons hd tl ih =>
    obtain ⟨k, j⟩ := hd
    simp only [List.map_cons, List.nodup_cons] at h
    have hstep : restore_tracking_states r ((k, j) :: tl) =
        restore_tracking_states (setA r k (OrderJson.from_json j)) tl := by
      simp [restore_tracking_states]
    rw [hstep, ih _ h.2]
    by_cases hs : s = k
    · subst hs
      have hnone : lookupA tl s = none := lookupA_eq_none_of_not_mem tl s h.1
      simp [hnone, lookupA, lookupA_setA]
    · simp only [lookupA, if_neg hs]
      cases lookupA tl s with
      | some a => rfl
      | none => simp [lookupA_setA, hs]

/-- Claim C9 counterexample: `tracking_states` serializes only the active
view, so a tracked order that already reached the terminal state FILLED is
dropped by the round trip into a fresh tracker — it does not reappear. -/
theorem tracking_round_trip_counterexample :
    lookupA [("buy-ADA-USDT", filledSampleOrder)] "buy-ADA-USDT" =
      some filledSampleOrder ∧
    filledSampleOrder.current_state.isTerminal = true ∧
    lookupA (restore_tracking_states []
      (tracking_states [("buy-ADA-USDT", filledSampleOrder)])) "buy-ADA-USDT" = none := by
  refine ⟨by decide, by decide, by decide⟩

/-- Claim C9 amended: serializing the tracked orders via `tracking_states`
and reloading them via `restore_tracking_states` into a fresh tracker
restores every active (non-terminal) tracked order with all its attributes;
orders already in a terminal state are excluded from `tracking_states`
(it serializes the active view only) and do not reappear. -/
theorem tracking_round_trip_active (reg : List (String × InFlightOrder))
    (cid : String) (o : InFlightOrder)
    (hnodup : (reg.map Prod.fst).Nodup)
    (hfound : lookupA reg cid = some o)
    (hterm : o.current_state.isTerminal = false) :
    lookupA (restore_tracking_states [] (tracking_states reg)) cid = some o := by
  rw [lookupA_restore _ _ _ (tracking_states_keys_nodup reg hnodup)]
  have hact : lookupA (active_orders reg) cid = some o := by
    have h2 := lookupA_filter_pos (fun p => !p.2.current_state.isTerminal)
      reg cid o hfound (by simp [hterm])
    exact h2
  have htrack : lookupA (tracking_states reg) cid =
      some (InFlightOrder.to_json o) := by
    rw [show tracking_states reg =
      (active_orders reg).map (fun p => (p.1, InFlightOrder.to_json p.2)) from rfl]
    rw [lookupA_mapSnd, hact]
    rfl
  rw [htrack]
  exact congrArg some (from_json_to_json o)

/-- Claim C9 amended witness: a concrete OPEN order round-trips with all its
attributes into a fresh tracker. -/
theorem tracking_round_trip_active_witness :
    lookupA (restore_tracking_states [] (tracking_states
      [("buy-ADA-USDT", openSampleOrder)])) "buy-ADA-USDT" = some openSampleOrder :=
  tracking_round_trip_active [("buy-ADA-USDT", openSampleOrder)] "buy-ADA-USDT"
    openSampleOrder (by decide) (by decide) (by decide)
